import Mathlib

/-!
Shallow embedding of the `wgpu_beginner` renderer core
(`src/main.rs`, `src/renderer_backend/mesh_builder.rs`).

GPU handles (device, queue, surface, pipeline, bind groups) are opaque in
the source, so they are modelled by identifiers; buffers are modelled by
their contents.  `f32` vertex coordinates are modelled by exact rationals
(every literal in the source is a small decimal).  The observable effects
of the code — which surface configurations get applied, which render
commands are recorded, which errors are logged — are returned as explicit
traces so that theorems can speak about them.
-/

namespace WgpuBeginner

/-! ## Vertex data model (`mesh_builder.rs`) -/

/-- The two vertex attribute formats used by the crate.
`Float32x2` is two 32-bit floats (8 bytes), `Float32x3` three (12 bytes). -/
inductive VertexFormat where
  | Float32x2
  | Float32x3
  deriving DecidableEq, Repr

/-- Byte size of a vertex attribute format. -/
def VertexFormat.byteSize : VertexFormat → Nat
  | .Float32x2 => 8
  | .Float32x3 => 12

/-- One entry of a `wgpu::VertexBufferLayout`. -/
structure VertexAttribute where
  format : VertexFormat
  offset : Nat
  shader_location : Nat
  deriving DecidableEq, Repr

/-- `wgpu::VertexBufferLayout` (the `step_mode` is always `Vertex` in this
crate and is omitted). -/
structure VertexBufferLayout where
  array_stride : Nat
  attributes : List VertexAttribute
  deriving DecidableEq, Repr

/-- `glm::Vec3`: three `f32` components, modelled exactly by rationals. -/
structure Vec3 where
  x : ℚ
  y : ℚ
  z : ℚ
  deriving DecidableEq, Repr

/-- `Vec3::new`. -/
def Vec3.new (x y z : ℚ) : Vec3 := ⟨x, y, z⟩

/-- The `#[repr(C)] struct Vertex` of `mesh_builder.rs` (the source spells
the first field `poistion`). -/
structure Vertex where
  poistion : Vec3
  color : Vec3
  deriving DecidableEq, Repr

/-- `size_of::<Vec3>()`: three `f32`s, 12 bytes. -/
def size_of_Vec3 : Nat := 12

/-- `size_of::<Vertex>()`: `#[repr(C)]` of two `Vec3` fields, each of size
12 and alignment 4, hence 24 bytes with the fields at offsets 0 and 12. -/
def size_of_Vertex : Nat := size_of_Vec3 + size_of_Vec3

/-- The in-memory attribute layout of the `Vertex` record itself
(`poistion : Vec3` at offset 0, `color : Vec3` at offset 12, both three
`f32`s), i.e. what a layout matching the record would have to declare. -/
def vertexRecordAttributes : List VertexAttribute :=
  [⟨.Float32x3, 0, 0⟩, ⟨.Float32x3, size_of_Vec3, 1⟩]

/-- `Vertex::get_layout`: `array_stride` is `size_of::<Vertex>()` and the
attributes are `vertex_attr_array![0 => Float32x2, 1 => Float32x2]`, whose
macro expansion places location 0 at offset 0 and location 1 at offset
`size(Float32x2) = 8`. -/
def Vertex.get_layout : VertexBufferLayout :=
  { array_stride := size_of_Vertex
  , attributes := [⟨.Float32x2, 0, 0⟩, ⟨.Float32x2, 8, 1⟩] }

/-! ## Mesh builder -/

/-- A `wgpu::Buffer` holding vertex data, modelled by its contents. -/
abbrev Buffer := List Vertex

/-- `make_triangle`: a vertex buffer initialised immediately from the
compile-time array of three vertices (no index buffer is created; the
function returns a bare `wgpu::Buffer`). -/
def make_triangle : Buffer :=
  [ { poistion := Vec3.new (-3/4) (-3/4) 0, color := Vec3.new 0 0 0 }
  , { poistion := Vec3.new (3/4) (-3/4) 0, color := Vec3.new 0 0 0 }
  , { poistion := Vec3.new 0 (3/4) 0, color := Vec3.new 1 1 1 } ]

/-- Modelled from the spec: the `Mesh` type of `renderer_backend/mesh_builder.rs`
is not among the provided sources (only its uses in `main.rs` are: a
`vertex_buffer` and an `index_buffer` field).  Per the spec a Mesh "owns one
vertex buffer and, optionally, one index buffer"; the quad's indices are
16-bit. -/
structure Mesh where
  vertex_buffer : Buffer
  index_buffer : List Nat
  deriving DecidableEq, Repr

/-- Modelled from the spec: `make_quad` is absent from the provided sources
(only its caller `State::new` and the draw calls in `State::render` appear).
Per the spec it builds a mesh of exactly 4 vertices and 6 indices encoding
two counter-clockwise triangles covering the quad, via immediate buffer
initialisation from compile-time data. -/
def make_quad : Mesh :=
  { vertex_buffer :=
      [ { poistion := Vec3.new (-3/4) (-3/4) 0, color := Vec3.new 0 0 0 }
      , { poistion := Vec3.new (3/4) (-3/4) 0, color := Vec3.new 0 0 0 }
      , { poistion := Vec3.new (3/4) (3/4) 0, color := Vec3.new 1 1 1 }
      , { poistion := Vec3.new (-3/4) (3/4) 0, color := Vec3.new 1 1 1 } ]
  , index_buffer := [0, 1, 2, 2, 3, 0] }

/-- A triangle `(a, b, c)` is counter-clockwise when the signed area of its
projection to the x-y plane is positive. -/
def ccw (a b c : Vec3) : Prop :=
  0 < (b.x - a.x) * (c.y - a.y) - (b.y - a.y) * (c.x - a.x)

instance (a b c : Vec3) : Decidable (ccw a b c) := by
  unfold ccw; infer_instance

/-- The position of the `i`-th vertex of a mesh (out-of-range reads give a
zero vertex; every claim only reads in-range indices). -/
def mesh_vertex_pos (m : Mesh) (i : Nat) : Vec3 :=
  (m.vertex_buffer.getD i ⟨⟨0, 0, 0⟩, ⟨0, 0, 0⟩⟩).poistion

/-- The `k`-th indexed triangle of a mesh (indices `3k, 3k+1, 3k+2` of its
index buffer) is counter-clockwise. -/
def quad_tri_ccw (m : Mesh) (k : Nat) : Prop :=
  ccw (mesh_vertex_pos m (m.index_buffer.getD (3 * k) 0))
      (mesh_vertex_pos m (m.index_buffer.getD (3 * k + 1) 0))
      (mesh_vertex_pos m (m.index_buffer.getD (3 * k + 2) 0))

instance (m : Mesh) (k : Nat) : Decidable (quad_tri_ccw m k) := by
  unfold quad_tri_ccw; infer_instance

/-! ## Surface data model (`main.rs`) -/

/-- A `wgpu::TextureFormat`, abstracted to an identifier plus the result of
its `is_srgb()` query (the only property `main.rs` inspects). -/
structure TextureFormat where
  id : Nat
  srgb : Bool
  deriving DecidableEq, Repr

/-- The fields of `wgpu::SurfaceCapabilities` read by `State::new`. -/
structure SurfaceCapabilities where
  formats : List TextureFormat
  present_modes : List Nat
  alpha_modes : List Nat
  deriving DecidableEq, Repr

/-- `wgpu::SurfaceConfiguration` (usage, present mode and alpha mode are
opaque identifiers). -/
structure SurfaceConfiguration where
  usage : Nat
  format : TextureFormat
  width : Nat
  height : Nat
  present_mode : Nat
  alpha_mode : Nat
  view_formats : List TextureFormat
  desired_maximum_frame_latency : Nat
  deriving DecidableEq, Repr

/-- The `i32 → u32` cast (`new_size.0 as u32`): reinterpretation of the
two's-complement bit pattern, i.e. reduction modulo `2^32`. -/
def u32_of_i32 (x : Int) : Nat := (x % (2 : Int) ^ 32).toNat

/-- `wgpu::SurfaceError` (the variants of the wgpu version in use). -/
inductive SurfaceError where
  | Timeout
  | Outdated
  | Lost
  | OutOfMemory
  deriving DecidableEq, Repr, Fintype

/-! ## Render state -/

/-- `wgpu::IndexFormat`. -/
inductive IndexFormat where
  | Uint16
  | Uint32
  deriving DecidableEq, Repr

/-- A clear color (`wgpu::Color`, `f64` fields modelled exactly). -/
structure Color where
  r : ℚ
  g : ℚ
  b : ℚ
  a : ℚ
  deriving DecidableEq, Repr

/-- The fields of `struct State` that the render loop reads or writes.
The device, queue, instance and window handles carry no observable data in
the model; materials are represented by their bind-group identifiers and the
pipeline by an identifier. -/
structure State where
  config : SurfaceConfiguration
  size : Int × Int
  render_pipeline : Nat
  triangle_mesh : Buffer
  quad_mesh : Mesh
  triangle_material : Nat
  quad_material : Nat
  deriving DecidableEq, Repr

/-- One recorded GPU-side action of `State::render`, in program order. -/
inductive RenderCmd where
  | create_view
  | create_command_encoder
  | begin_render_pass (clear : Color)
  | set_pipeline (p : Nat)
  | set_bind_group (slot : Nat) (group : Nat)
  | set_vertex_buffer (slot : Nat) (b : Buffer)
  | set_index_buffer (b : List Nat) (fmt : IndexFormat)
  | draw_indexed (lo hi : Nat) (base_vertex : Int) (ilo ihi : Nat)
  | draw (lo hi : Nat) (ilo ihi : Nat)
  | end_render_pass
  | submit
  | present
  deriving DecidableEq, Repr

/-- `State::render`.  Acquiring the next surface texture is the only
fallible, environment-dependent step; its outcome is passed in as
`acquire`.  On failure the `?` operator returns the error before anything
else happens.  On success the recorded commands are returned as a trace,
in program order; `render` never mutates any `State` field. -/
def State.render (s : State) (acquire : Except SurfaceError Unit) :
    State × List RenderCmd × Except SurfaceError Unit :=
  match acquire with
  | .error e => (s, [], .error e)
  | .ok _ =>
    (s,
     [ .create_view
     , .create_command_encoder
     , .begin_render_pass ⟨1/5, 2/5, 3/5, 0⟩
     , .set_pipeline s.render_pipeline
     , .set_bind_group 0 s.quad_material
     , .set_vertex_buffer 0 s.quad_mesh.vertex_buffer
     , .set_index_buffer s.quad_mesh.index_buffer .Uint16
     , .draw_indexed 0 6 0 0 1
     , .set_bind_group 0 s.triangle_material
     , .set_vertex_buffer 0 s.triangle_mesh
     , .draw 0 3 0 1
     , .end_render_pass
     , .submit
     , .present ],
     .ok ())

/-- `State::resize`.  Also returns the list of surface configurations that
the call applies via `surface.configure` (empty when the guard fails). -/
def State.resize (s : State) (new_size : Int × Int) :
    State × List SurfaceConfiguration :=
  if 0 < new_size.1 ∧ 0 < new_size.2 then
    let config' := { s.config with
                     width := u32_of_i32 new_size.1
                     height := u32_of_i32 new_size.2 }
    ({ s with size := new_size, config := config' }, [config'])
  else
    (s, [])

/-! ## Initialization (`State::new`) -/

/-- The surface-format selection of `State::new`: the first sRGB-capable
format of the capability list, else `formats[0]` (indexing that panics on an
empty list; theorems assume the list nonempty). -/
def choose_surface_format (caps : SurfaceCapabilities) : TextureFormat :=
  ((caps.formats.filter fun f => f.srgb).head?).getD
    (caps.formats.headD ⟨0, false⟩)

/-- Identifier standing for `wgpu::TextureUsages::RENDER_ATTACHMENT`. -/
def RENDER_ATTACHMENT : Nat := 16

/-- The `wgpu::SurfaceConfiguration` literal built by `State::new` from the
surface capabilities and the window's framebuffer size. -/
def init_config (caps : SurfaceCapabilities) (size : Int × Int) :
    SurfaceConfiguration :=
  { usage := RENDER_ATTACHMENT
  , format := choose_surface_format caps
  , width := u32_of_i32 size.1
  , height := u32_of_i32 size.2
  , present_mode := caps.present_modes.headD 0
  , alpha_mode := caps.alpha_modes.headD 0
  , view_formats := []
  , desired_maximum_frame_latency := 2 }

/-- The `State` value assembled by `State::new` (pipeline and material
identifiers are parameters; meshes come from the mesh builder; `size` is the
framebuffer size queried at entry). -/
def State.new (caps : SurfaceCapabilities) (size : Int × Int)
    (pipeline tri_mat quad_mat : Nat) : State :=
  { config := init_config caps size
  , size := size
  , render_pipeline := pipeline
  , triangle_mesh := make_triangle
  , quad_mesh := make_quad
  , triangle_material := tri_mat
  , quad_material := quad_mat }

/-! ## Event loop (`run`) -/

/-- The GLFW keys the loop distinguishes: `Key::Escape` against all
others. -/
inductive Key where
  | Escape
  | OtherKey
  deriving DecidableEq, Repr

/-- GLFW key actions. -/
inductive Action where
  | Press
  | Release
  | Repeat
  deriving DecidableEq, Repr

/-- The window events the loop's `match` distinguishes. -/
inductive WindowEvent where
  | key (k : Key) (a : Action)
  | framebuffer_size (w h : Int)
  | otherEvent
  deriving DecidableEq, Repr

/-- The loop's state between ticks: the render `State` plus the window's
`should_close` flag. -/
structure LoopState where
  st : State
  should_close : Bool
  deriving DecidableEq, Repr

/-- The environment input of one `while` iteration: whether the OS
delivered a window-close request during `poll_events` (GLFW sets the
window's should-close flag for it), the polled event queue, and the outcome
of this tick's surface-texture acquisition inside `render`. -/
structure TickInput where
  close_clicked : Bool
  events : List WindowEvent
  acquire : Except SurfaceError Unit
  deriving Repr

/-- The observable actions of one `while` iteration. -/
structure TickTrace where
  configures : List SurfaceConfiguration
  render_called : Bool
  render_result : Except SurfaceError Unit
  recovery_resizes : List (Int × Int)
  logged : List SurfaceError
  deriving Repr

/-- The body of the event `match`: `Key(Escape, _, Press, _)` sets the
should-close flag, `FramebufferSize(w, h)` calls `resize`, anything else is
ignored.  Also returns the configurations applied by a `resize`. -/
def process_event (s : LoopState) (e : WindowEvent) :
    LoopState × List SurfaceConfiguration :=
  match e with
  | .key .Escape .Press => ({ s with should_close := true }, [])
  | .framebuffer_size w h =>
      let r := s.st.resize (w, h)
      ({ s with st := r.1 }, r.2)
  | _ => (s, [])

/-- The `for (_, event) in flush_messages(&events)` loop. -/
def process_events (s : LoopState) :
    List WindowEvent → LoopState × List SurfaceConfiguration
  | [] => (s, [])
  | e :: rest =>
      let r₁ := process_event s e
      let r₂ := process_events r₁.1 rest
      (r₂.1, r₁.2 ++ r₂.2)

/-- One iteration of the `while !should_close` body: poll events (an OS
close request sets the flag), run the event `match`, call `render`, and
dispatch on its result — `Lost`/`Outdated` triggers `resize(state.size)`,
any other error is logged with `eprint!`. -/
def tick (s : LoopState) (inp : TickInput) : LoopState × TickTrace :=
  let s₀ := if inp.close_clicked then { s with should_close := true } else s
  let pe := process_events s₀ inp.events
  let rr := pe.1.st.render inp.acquire
  let s₂ := { pe.1 with st := rr.1 }
  match rr.2.2 with
  | .ok _ =>
      (s₂, ⟨pe.2, true, rr.2.2, [], []⟩)
  | .error .Lost =>
      let sz := s₂.st.size
      let rz := s₂.st.resize sz
      ({ s₂ with st := rz.1 }, ⟨pe.2 ++ rz.2, true, rr.2.2, [sz], []⟩)
  | .error .Outdated =>
      let sz := s₂.st.size
      let rz := s₂.st.resize sz
      ({ s₂ with st := rz.1 }, ⟨pe.2 ++ rz.2, true, rr.2.2, [sz], []⟩)
  | .error e =>
      (s₂, ⟨pe.2, true, rr.2.2, [], [e]⟩)

/-- The `while !window.should_close()` loop, driven by one `TickInput` per
potential iteration; it stops (state **Terminated**) as soon as the flag is
set, returning the traces of the iterations actually executed. -/
def run_loop (s : LoopState) : List TickInput → List TickTrace
  | [] => []
  | inp :: rest =>
      if s.should_close then []
      else
        let t := tick s inp
        t.2 :: run_loop t.1 rest

/-- An event is a close request when it is an Escape key press (the only
event the `match` maps to `set_should_close(true)`). -/
def is_close_event (e : WindowEvent) : Prop :=
  e = .key .Escape .Press

instance (e : WindowEvent) : Decidable (is_close_event e) := by
  unfold is_close_event; infer_instance

/-- A tick input carries a close request when the OS asked to close or the
event queue holds an Escape press. -/
def has_close_request (inp : TickInput) : Prop :=
  inp.close_clicked = true ∨ WindowEvent.key .Escape .Press ∈ inp.events

/-- GLFW delivers framebuffer sizes as `i32` values; a model event is valid
when its payload is in `i32` range. -/
def valid_event : WindowEvent → Prop
  | .framebuffer_size w h =>
      -(2 : Int) ^ 31 ≤ w ∧ w < 2 ^ 31 ∧ -(2 : Int) ^ 31 ≤ h ∧ h < 2 ^ 31
  | _ => True

instance (e : WindowEvent) : Decidable (valid_event e) := by
  cases e <;> simp only [valid_event] <;> infer_instance

/-- All events of a tick input are in `i32` range. -/
def valid_input (inp : TickInput) : Prop :=
  ∀ e ∈ inp.events, valid_event e

instance (inp : TickInput) : Decidable (valid_input inp) := by
  unfold valid_input; infer_instance

/-- A size pair is a positive in-range framebuffer size. -/
def size_ok (sz : Int × Int) : Prop :=
  0 < sz.1 ∧ sz.1 < 2 ^ 31 ∧ 0 < sz.2 ∧ sz.2 < 2 ^ 31

instance (sz : Int × Int) : Decidable (size_ok sz) := by
  unfold size_ok; infer_instance

/-- A surface configuration with a non-zero area. -/
def config_pos (c : SurfaceConfiguration) : Prop :=
  0 < c.width ∧ 0 < c.height

instance (c : SurfaceConfiguration) : Decidable (config_pos c) := by
  unfold config_pos; infer_instance

/-- Every surface configuration applied over a whole run: the one applied
by `State::new`, followed by every one applied by any tick (event-driven
`resize` or error-recovery `resize`). -/
def run_configures (caps : SurfaceCapabilities) (size : Int × Int)
    (pipeline tri_mat quad_mat : Nat) (inputs : List TickInput) :
    List SurfaceConfiguration :=
  init_config caps size ::
    (run_loop ⟨State.new caps size pipeline tri_mat quad_mat, false⟩ inputs
      |>.map TickTrace.configures).flatten

/-! ## Concrete sample values (used by witnesses) -/

/-- A sample capability set: a non-sRGB format followed by an sRGB one. -/
def sampleCaps : SurfaceCapabilities :=
  { formats := [⟨7, false⟩, ⟨3, true⟩, ⟨4, true⟩]
  , present_modes := [2, 5]
  , alpha_modes := [9] }

/-- A sample render state as assembled by `State::new` for an 800×600
framebuffer. -/
def sampleState : State := State.new sampleCaps (800, 600) 1 2 3

/-- The sample loop state right after initialization. -/
def sampleLoop : LoopState := ⟨sampleState, false⟩

/-- A tick whose event queue holds an Escape press and whose acquisition
succeeds. -/
def close_tick : TickInput := ⟨false, [.key .Escape .Press], .ok ()⟩

/-- A tick with no events and a successful acquisition. -/
def ok_tick : TickInput := ⟨false, [], .ok ()⟩

/-- A tick with no events whose acquisition fails with `Lost`. -/
def lost_tick : TickInput := ⟨false, [], .error .Lost⟩

/-- A tick delivering a framebuffer resize to 1024×768. -/
def resize_tick : TickInput := ⟨false, [.framebuffer_size 1024 768], .ok ()⟩

/-! ## Arithmetic helper lemmas -/

/-- The `i32 → u32` cast is the identity on non-negative in-range values. -/
theorem u32_of_i32_eq_toNat (x : Int) (h0 : 0 ≤ x) (h : x < 2 ^ 32) :
    u32_of_i32 x = x.toNat := by
  unfold u32_of_i32
  rw [Int.emod_eq_of_lt h0 h]

/-- The `i32 → u32` cast sends positive in-range values to positive
values. -/
theorem u32_of_i32_pos (x : Int) (h0 : 0 < x) (h : x < 2 ^ 32) :
    0 < u32_of_i32 x := by
  rw [u32_of_i32_eq_toNat x (le_of_lt h0) h]
  omega

/-- `headD` agrees with `head` on nonempty lists. -/
theorem headD_eq_head (l : List α) (d : α) (h : l ≠ []) :
    l.headD d = l.head h := by
  cases l with
  | nil => exact absurd rfl h
  | cons a t => rfl

/-- The head of a filtered list is the first element satisfying the
predicate. -/
theorem head?_filter_eq_find? (p : α → Bool) (l : List α) :
    (l.filter p).head? = l.find? p := by
  induction l with
  | nil => rfl
  | cons a l ih =>
      cases h : p a <;> simp [List.filter_cons, h, List.find?, ih]

/-! ## Claim theorems -/

/-- C1: `Vertex::get_layout` is supposed to return 2 attributes whose
formats and offsets match the in-memory layout of `Vertex`
(`{position: 3 floats, color: 3 floats}`), with their combined byte size
equal to `size_of::<Vertex>()`.  The code instead declares two `Float32x2`
attributes at offsets 0 and 8: their combined byte size is 16, not the
declared 24-byte `array_stride`, and neither formats nor offsets match the
record's fields (three floats at offsets 0 and 12). -/
theorem vertex_layout_mismatches_record :
    Vertex.get_layout.attributes.length = 2 ∧
    Vertex.get_layout.array_stride = 24 ∧
    (Vertex.get_layout.attributes.map fun a => a.format.byteSize).sum = 16 ∧
    (Vertex.get_layout.attributes.map fun a => a.format.byteSize).sum ≠
      Vertex.get_layout.array_stride ∧
    Vertex.get_layout.attributes ≠ vertexRecordAttributes := by
  refine ⟨rfl, rfl, rfl, ?_, ?_⟩ <;> decide

/-- C10: when acquiring the next surface texture fails, `render` returns
the surface error immediately: no command encoder is created, nothing is
submitted or presented (the command trace is empty), and the `State` is
returned unchanged. -/
theorem render_error_atomic (s : State) (e : SurfaceError) :
    s.render (.error e) = (s, [], .error e) := rfl

/-- C6: a successful `render` records exactly one render pass that clears
the color target, binds the pipeline, draws the quad first (its material's
bind group at slot 0, its vertex buffer, its index buffer as 16-bit
indices, an indexed draw of indices 0..6 — all 6 indices of the quad mesh —
with 1 instance) and then the triangle (its material's bind group at slot
0, its vertex buffer, a non-indexed draw of 3 vertices with 1 instance),
then submits and presents, returning success and leaving the state
unchanged. -/
theorem render_success_trace (s : State) :
    s.render (.ok ()) =
      (s,
       [ .create_view
       , .create_command_encoder
       , .begin_render_pass ⟨1/5, 2/5, 3/5, 0⟩
       , .set_pipeline s.render_pipeline
       , .set_bind_group 0 s.quad_material
       , .set_vertex_buffer 0 s.quad_mesh.vertex_buffer
       , .set_index_buffer s.quad_mesh.index_buffer .Uint16
       , .draw_indexed 0 6 0 0 1
       , .set_bind_group 0 s.triangle_material
       , .set_vertex_buffer 0 s.triangle_mesh
       , .draw 0 3 0 1
       , .end_render_pass
       , .submit
       , .present ],
       .ok ()) ∧
    make_quad.index_buffer.length = 6 :=
  ⟨rfl, rfl⟩

/-- C3: for strictly positive (in-range) dimensions, `resize` stores the
new size, sets the configuration's width and height to the requested
values as unsigned integers, and applies exactly that configuration to the
surface (the model is total, so no panic is possible). -/
theorem resize_positive_updates (s : State) (w h : Int)
    (hw : 0 < w) (hw' : w < 2 ^ 31) (hh : 0 < h) (hh' : h < 2 ^ 31) :
    (s.resize (w, h)).1.size = (w, h) ∧
    (s.resize (w, h)).1.config.width = w.toNat ∧
    (s.resize (w, h)).1.config.height = h.toNat ∧
    (s.resize (w, h)).2 = [(s.resize (w, h)).1.config] := by
  have hcast_w : u32_of_i32 w = w.toNat :=
    u32_of_i32_eq_toNat w (le_of_lt hw) (by omega)
  have hcast_h : u32_of_i32 h = h.toNat :=
    u32_of_i32_eq_toNat h (le_of_lt hh) (by omega)
  unfold State.resize
  rw [if_pos (show 0 < (w, h).1 ∧ 0 < (w, h).2 from ⟨hw, hh⟩)]
  exact ⟨rfl, hcast_w, hcast_h, rfl⟩

/-- C3 witness: resizing the sample state to 1024×768. -/
theorem resize_positive_updates_witness :
    (sampleState.resize (1024, 768)).1.size = (1024, 768) ∧
    (sampleState.resize (1024, 768)).1.config.width = (1024 : Int).toNat ∧
    (sampleState.resize (1024, 768)).1.config.height = (768 : Int).toNat ∧
    (sampleState.resize (1024, 768)).2 =
      [(sampleState.resize (1024, 768)).1.config] :=
  resize_positive_updates sampleState 1024 768 (by decide) (by decide)
    (by decide) (by decide)

/-- C4: `resize` with a non-positive dimension is a complete no-op: the
state (stored size, whole surface configuration and every other field) is
returned unchanged and no configuration is applied to the surface. -/
theorem resize_nonpositive_noop (s : State) (w h : Int)
    (hwh : w ≤ 0 ∨ h ≤ 0) :
    s.resize (w, h) = (s, []) := by
  unfold State.resize
  rw [if_neg]
  intro hpos
  rcases hwh with hw | hh
  · exact absurd hpos.1 (by simpa using hw)
  · exact absurd hpos.2 (by simpa using hh)

/-- C4 witness: resizing the sample state to 0×600 changes nothing. -/
theorem resize_nonpositive_noop_witness :
    sampleState.resize (0, 600) = (sampleState, []) :=
  resize_nonpositive_noop sampleState 0 600 (Or.inl (by decide))

/-- C8: `make_triangle` builds a bare vertex buffer of exactly 3 vertices
(and, being a plain buffer, no index buffer); `make_quad` builds a mesh of
exactly 4 vertices and 6 in-range indices forming two counter-clockwise
triangles; both come from compile-time vertex arrays. -/
theorem mesh_builder_shapes :
    make_triangle.length = 3 ∧
    make_quad.vertex_buffer.length = 4 ∧
    make_quad.index_buffer.length = 6 ∧
    (∀ i ∈ make_quad.index_buffer, i < make_quad.vertex_buffer.length) ∧
    quad_tri_ccw make_quad 0 ∧ quad_tri_ccw make_quad 1 := by
  refine ⟨rfl, rfl, rfl, by decide, ?_, ?_⟩ <;>
    norm_num [quad_tri_ccw, ccw, mesh_vertex_pos, make_quad, Vec3.new]

/-- C5: the chosen surface format is the first sRGB-capable one among the
supported formats if any exists (first-match), otherwise the first
supported format; the configuration uses the first reported present mode,
the first reported alpha mode, and the framebuffer size (as unsigned) as
its dimensions. -/
theorem init_config_selects_first (caps : SurfaceCapabilities)
    (size : Int × Int) (hf : caps.formats ≠ []) (hp : caps.present_modes ≠ [])
    (ha : caps.alpha_modes ≠ []) :
    (init_config caps size).format =
      ((caps.formats.find? fun f => f.srgb).getD (caps.formats.head hf)) ∧
    (init_config caps size).present_mode = caps.present_modes.head hp ∧
    (init_config caps size).alpha_mode = caps.alpha_modes.head ha ∧
    (init_config caps size).width = u32_of_i32 size.1 ∧
    (init_config caps size).height = u32_of_i32 size.2 := by
  refine ⟨?_, ?_, ?_, rfl, rfl⟩
  · show choose_surface_format caps = _
    unfold choose_surface_format
    rw [head?_filter_eq_find?, headD_eq_head caps.formats _ hf]
  · show (caps.present_modes.headD 0) = _
    exact headD_eq_head caps.present_modes 0 hp
  · show (caps.alpha_modes.headD 0) = _
    exact headD_eq_head caps.alpha_modes 0 ha

/-- C5 witness: on the sample capabilities (whose first format is not sRGB
and whose second is) and the 800×600 framebuffer. -/
theorem init_config_selects_first_witness :
    (init_config sampleCaps (800, 600)).format =
      ((sampleCaps.formats.find? fun f => f.srgb).getD
        (sampleCaps.formats.head (by decide))) ∧
    (init_config sampleCaps (800, 600)).present_mode =
      sampleCaps.present_modes.head (by decide) ∧
    (init_config sampleCaps (800, 600)).alpha_mode =
      sampleCaps.alpha_modes.head (by decide) ∧
    (init_config sampleCaps (800, 600)).width = u32_of_i32 800 ∧
    (init_config sampleCaps (800, 600)).height = u32_of_i32 600 :=
  init_config_selects_first sampleCaps (800, 600) (by decide) (by decide)
    (by decide)

/-! ## Loop lemmas -/

/-- Processing a non-close event leaves the should-close flag alone. -/
theorem process_event_should_close (s : LoopState) (e : WindowEvent)
    (h : ¬ is_close_event e) :
    (process_event s e).1.should_close = s.should_close := by
  cases e with
  | key k a =>
      cases k <;> cases a <;> first
        | rfl
        | exact absurd rfl h
  | framebuffer_size w h => rfl
  | otherEvent => rfl

/-- Processing a queue without close events leaves the should-close flag
alone. -/
theorem process_events_should_close (s : LoopState) (evs : List WindowEvent)
    (h : ∀ e ∈ evs, ¬ is_close_event e) :
    (process_events s evs).1.should_close = s.should_close := by
  induction evs generalizing s with
  | nil => rfl
  | cons e rest ih =>
      show (process_events (process_event s e).1 rest).1.should_close = _
      rw [ih _ fun x hx => h x (List.mem_cons_of_mem e hx)]
      exact process_event_should_close s e (h e (List.mem_cons_self e rest))

/-- Once the should-close flag is set, event processing never clears it. -/
theorem process_events_should_close_mono (s : LoopState)
    (evs : List WindowEvent) (h : s.should_close = true) :
    (process_events s evs).1.should_close = true := by
  induction evs generalizing s with
  | nil => exact h
  | cons e rest ih =>
      show (process_events (process_event s e).1 rest).1.should_close = true
      refine ih _ ?_
      cases e with
      | key k a => cases k <;> cases a <;> first | rfl | exact h
      | framebuffer_size w h' => exact h
      | otherEvent => exact h

/-- An Escape press anywhere in the queue sets the should-close flag. -/
theorem process_events_close_of_mem (s : LoopState) (evs : List WindowEvent)
    (h : WindowEvent.key .Escape .Press ∈ evs) :
    (process_events s evs).1.should_close = true := by
  induction evs generalizing s with
  | nil => cases h
  | cons e rest ih =>
      show (process_events (process_event s e).1 rest).1.should_close = true
      rcases List.mem_cons.mp h with rfl | hmem
      · exact process_events_should_close_mono _ rest rfl
      · exact ih _ hmem

/-- The tick body never changes the should-close flag after event
processing: `render` and the error dispatch only touch the render state. -/
theorem tick_should_close (s : LoopState) (inp : TickInput) :
    (tick s inp).1.should_close =
      (process_events
        (if inp.close_clicked then { s with should_close := true } else s)
        inp.events).1.should_close := by
  obtain ⟨cc, evs, acq⟩ := inp
  rcases acq with e | u
  · cases e <;> rfl
  · cases u; rfl

/-- Every executed tick calls `render` exactly once. -/
theorem tick_render_called (s : LoopState) (inp : TickInput) :
    (tick s inp).2.render_called = true := by
  obtain ⟨cc, evs, acq⟩ := inp
  rcases acq with e | u
  · cases e <;> rfl
  · cases u; rfl

/-- A loop whose should-close flag is set runs no further iterations. -/
theorem run_loop_terminated (s : LoopState) (h : s.should_close = true)
    (inputs : List TickInput) :
    run_loop s inputs = [] := by
  cases inputs with
  | nil => rfl
  | cons inp rest => simp [run_loop, h]

/-- C2: on a tick of the running loop (no close request pending), a `Lost`
or `Outdated` render error triggers exactly one `resize` with the
currently stored size and logs nothing; any other surface error is logged
(once) with no resize; and in neither case does the render-error path end
the loop — the should-close flag stays clear. -/
theorem render_error_policy (s : LoopState) (inp : TickInput)
    (hrun : s.should_close = false)
    (hnc : inp.close_clicked = false)
    (hne : ∀ e ∈ inp.events, ¬ is_close_event e) :
    ((inp.acquire = .error .Lost ∨ inp.acquire = .error .Outdated) →
        (tick s inp).2.recovery_resizes =
          [(process_events s inp.events).1.st.size] ∧
        (tick s inp).2.logged = []) ∧
    (∀ e, inp.acquire = .error e → e ≠ .Lost → e ≠ .Outdated →
        (tick s inp).2.logged = [e] ∧
        (tick s inp).2.recovery_resizes = []) ∧
    (tick s inp).1.should_close = false := by
  obtain ⟨cc, evs, acq⟩ := inp
  obtain rfl : cc = false := hnc
  refine ⟨?_, ?_, ?_⟩
  · rintro (rfl | rfl)
    · exact ⟨rfl, rfl⟩
    · exact ⟨rfl, rfl⟩
  · rintro e rfl hl ho
    cases e with
    | Lost => exact absurd rfl hl
    | Outdated => exact absurd rfl ho
    | Timeout => exact ⟨rfl, rfl⟩
    | OutOfMemory => exact ⟨rfl, rfl⟩
  · rw [tick_should_close]
    exact (process_events_should_close s evs hne).trans hrun

/-- C2 witness: a `Lost` acquisition on the freshly initialized sample loop
state performs one recovery resize with the stored 800×600 size, logs
nothing, and leaves the loop running. -/
theorem render_error_policy_witness :
    (tick sampleLoop lost_tick).2.recovery_resizes = [(800, 600)] ∧
    (tick sampleLoop lost_tick).2.logged = [] ∧
    (tick sampleLoop lost_tick).1.should_close = false := by
  have h := render_error_policy sampleLoop lost_tick rfl rfl (by decide)
  exact ⟨((h.1 (Or.inl rfl)).1).trans rfl, (h.1 (Or.inl rfl)).2, h.2.2⟩

/-- C7 counterexample: on the tick whose event queue carries the Escape
press, the loop still calls `render` once after processing the close
request (the flag is set, yet the trace records a render); the run with a
second pending tick executes exactly that one render. -/
theorem close_tick_renders_once :
    (tick sampleLoop close_tick).1.should_close = true ∧
    (tick sampleLoop close_tick).2.render_called = true ∧
    (run_loop sampleLoop [close_tick, ok_tick]).map TickTrace.render_called =
      [true] :=
  ⟨rfl, rfl, rfl⟩

/-- C7 (amended): a tick that carries a close request (OS close or Escape
press) still completes — including its one `render` call — sets the
should-close flag, and the loop runs no further iterations afterwards (no
render is issued in any later tick). -/
theorem close_request_terminates (s : LoopState) (inp : TickInput)
    (rest : List TickInput) (hc : has_close_request inp) :
    (tick s inp).1.should_close = true ∧
    (tick s inp).2.render_called = true ∧
    run_loop (tick s inp).1 rest = [] := by
  have hsc : (tick s inp).1.should_close = true := by
    rw [tick_should_close]
    rcases hc with hcc | hmem
    · refine process_events_should_close_mono _ _ ?_
      rw [hcc]
      rfl
    · exact process_events_close_of_mem _ _ hmem
  exact ⟨hsc, tick_render_called s inp, run_loop_terminated _ hsc rest⟩

/-- C7 (amended) witness: the closing tick on the sample state, with one
more tick pending that is never executed. -/
theorem close_request_terminates_witness :
    (tick sampleLoop close_tick).1.should_close = true ∧
    (tick sampleLoop close_tick).2.render_called = true ∧
    run_loop (tick sampleLoop close_tick).1 [ok_tick] = [] :=
  close_request_terminates sampleLoop close_tick [ok_tick]
    (Or.inr (by decide))

/-- `resize` preserves positivity (and `i32` range) of the stored size and
only ever applies positive-area configurations, given an in-range
argument. -/
theorem resize_inv (s : State) (sz : Int × Int) (hs : size_ok s.size)
    (hv1 : sz.1 < 2 ^ 31) (hv2 : sz.2 < 2 ^ 31) :
    size_ok (s.resize sz).1.size ∧
    ∀ c ∈ (s.resize sz).2, config_pos c := by
  unfold State.resize
  by_cases h : 0 < sz.1 ∧ 0 < sz.2
  · rw [if_pos h]
    refine ⟨⟨h.1, hv1, h.2, hv2⟩, ?_⟩
    intro c hc
    rw [List.mem_singleton] at hc
    subst hc
    exact ⟨u32_of_i32_pos _ h.1 (lt_trans hv1 (by norm_num)),
           u32_of_i32_pos _ h.2 (lt_trans hv2 (by norm_num))⟩
  · rw [if_neg h]
    exact ⟨hs, fun c hc => nomatch hc⟩

/-- Processing one event preserves size positivity and applies only
positive-area configurations. -/
theorem process_event_inv (s : LoopState) (e : WindowEvent)
    (hs : size_ok s.st.size) (hv : valid_event e) :
    size_ok (process_event s e).1.st.size ∧
    ∀ c ∈ (process_event s e).2, config_pos c := by
  cases e with
  | key k a =>
      cases k <;> cases a <;> exact ⟨hs, fun c hc => nomatch hc⟩
  | framebuffer_size w h =>
      exact resize_inv s.st (w, h) hs hv.2.1 hv.2.2.2
  | otherEvent => exact ⟨hs, fun c hc => nomatch hc⟩

/-- Processing an event queue preserves size positivity and applies only
positive-area configurations. -/
theorem process_events_inv (s : LoopState) (evs : List WindowEvent)
    (hs : size_ok s.st.size) (hv : ∀ e ∈ evs, valid_event e) :
    size_ok (process_events s evs).1.st.size ∧
    ∀ c ∈ (process_events s evs).2, config_pos c := by
  induction evs generalizing s with
  | nil => exact ⟨hs, fun c hc => nomatch hc⟩
  | cons e rest ih =>
      have h₁ := process_event_inv s e hs (hv e (List.mem_cons_self e rest))
      have h₂ := ih (process_event s e).1 h₁.1
        fun x hx => hv x (List.mem_cons_of_mem e hx)
      refine ⟨h₂.1, ?_⟩
      intro c hc
      rcases List.mem_append.mp hc with h | h
      · exact h₁.2 c h
      · exact h₂.2 c h

/-- One loop iteration preserves size positivity and applies only
positive-area configurations (via event resizes or error recovery). -/
theorem tick_inv (s : LoopState) (inp : TickInput)
    (hs : size_ok s.st.size) (hv : valid_input inp) :
    size_ok (tick s inp).1.st.size ∧
    ∀ c ∈ (tick s inp).2.configures, config_pos c := by
  obtain ⟨cc, evs, acq⟩ := inp
  have h₀ : size_ok
      (if cc then { s with should_close := true } else s).st.size := by
    cases cc <;> exact hs
  have hpe := process_events_inv _ evs h₀ hv
  rcases acq with e | u
  · cases e with
    | Lost =>
        have hrz := resize_inv _ _ hpe.1 hpe.1.2.1 hpe.1.2.2.2
        refine ⟨hrz.1, ?_⟩
        intro c hc
        rcases List.mem_append.mp hc with h | h
        · exact hpe.2 c h
        · exact hrz.2 c h
    | Outdated =>
        have hrz := resize_inv _ _ hpe.1 hpe.1.2.1 hpe.1.2.2.2
        refine ⟨hrz.1, ?_⟩
        intro c hc
        rcases List.mem_append.mp hc with h | h
        · exact hpe.2 c h
        · exact hrz.2 c h
    | Timeout => exact ⟨hpe.1, fun c hc => hpe.2 c hc⟩
    | OutOfMemory => exact ⟨hpe.1, fun c hc => hpe.2 c hc⟩
  · cases u
    exact ⟨hpe.1, fun c hc => hpe.2 c hc⟩

/-- Every configuration applied by any executed loop iteration has a
positive area, given a positive in-range starting size and in-range
events. -/
theorem run_loop_inv (s : LoopState) (inputs : List TickInput)
    (hs : size_ok s.st.size) (hv : ∀ inp ∈ inputs, valid_input inp) :
    ∀ tr ∈ run_loop s inputs, ∀ c ∈ tr.configures, config_pos c := by
  induction inputs generalizing s with
  | nil => intro tr htr; cases htr
  | cons inp rest ih =>
      intro tr htr
      unfold run_loop at htr
      by_cases hsc : s.should_close = true
      · rw [if_pos hsc] at htr; cases htr
      · rw [if_neg hsc] at htr
        have hti := tick_inv s inp hs (hv inp (List.mem_cons_self inp rest))
        rcases List.mem_cons.mp htr with rfl | h
        · exact hti.2
        · exact ih (tick s inp).1 hti.1
            (fun x hx => hv x (List.mem_cons_of_mem inp hx)) tr h

/-- C9: starting from a strictly positive (in-range) framebuffer size, the
surface is never configured with a zero-width or zero-height
configuration — neither by `State::new` nor by any later event-driven
`resize` or error-recovery reconfiguration of any executed tick. -/
theorem configures_always_positive (caps : SurfaceCapabilities)
    (size : Int × Int) (pipeline tri_mat quad_mat : Nat)
    (inputs : List TickInput) (hsz : size_ok size)
    (hv : ∀ inp ∈ inputs, valid_input inp) :
    ∀ c ∈ run_configures caps size pipeline tri_mat quad_mat inputs,
      config_pos c := by
  intro c hc
  unfold run_configures at hc
  rcases List.mem_cons.mp hc with rfl | h
  · exact ⟨u32_of_i32_pos _ hsz.1 (lt_trans hsz.2.1 (by norm_num)),
           u32_of_i32_pos _ hsz.2.2.1 (lt_trans hsz.2.2.2 (by norm_num))⟩
  · rw [List.mem_flatten] at h
    obtain ⟨l, hl, hcl⟩ := h
    obtain ⟨tr, htr, rfl⟩ := List.mem_map.mp hl
    exact run_loop_inv ⟨State.new caps size pipeline tri_mat quad_mat, false⟩
      inputs hsz hv tr htr c hcl

/-- C9 witness: in the run from an 800×600 framebuffer through a resize
tick and a `Lost`-recovery tick, the initial configuration (a member of
the run's configure trace) has positive area. -/
theorem configures_always_positive_witness :
    config_pos (init_config sampleCaps (800, 600)) :=
  configures_always_positive sampleCaps (800, 600) 1 2 3
    [resize_tick, lost_tick] (by decide) (by decide)
    (init_config sampleCaps (800, 600)) (by decide)

end WgpuBeginner
